import Mathlib

/-!
# Statistics client (`statistic/statistic.go`)

A shallow embedding of the Go package `statistic`: the eight query methods of
`StatisticManager` and the private helper `getRequest` they share.

The package talks to four collaborators that live outside the repository.  They are
kept as explicit parameters, so that every theorem holds for all of their behaviours:

* the credentials `mac` (`auth.Credentials`), seen through `SignRequest`;
* the HTTP library: the URL check made by `http.NewRequest` and the process-wide
  client `http.DefaultClient.Do`;
* the JSON library `encoding/json`: its syntax check and its per-type decoders;
* `fmt.Sprintf`, which is modelled concretely for the format strings the package uses.

Go strings are modelled by Lean strings and `uint64` values by naturals (the package
does no arithmetic on them).

Every call returns, next to the Go results, the list of effects it performed
(`Event`), so that statements such as "the transport is never invoked" can be read
off the run itself.
-/

namespace Statistic

/-! ## Strings and formatting -/

/-- Rendering of the operands left over once the format string is exhausted
(`%!(EXTRA string=a, string=b)` lists them separated by a comma). -/
def extraArgs : List String → List Char
  | [] => []
  | [a] => "string=".toList ++ a.toList
  | a :: rest => "string=".toList ++ a.toList ++ ", ".toList ++ extraArgs rest

/-- The scanning loop of `fmt.Sprintf` on string operands.  Literal characters are
copied, `%%` prints a percent sign, `%s` and `%v` print the next operand verbatim.
The error renderings of `fmt` are kept: a verb without operand prints
`%!c(MISSING)`, a verb that is not defined for strings prints `%!c(string=...)`, a
trailing lone `%` prints `%!(NOVERB)` and unused operands are listed by `extraArgs`.
Flags, widths and the verbs `%q`, `%x`, `%X` do not occur in this package and are
not part of the modelled fragment. -/
def sprintfAux : List Char → List String → List Char
  | [], [] => []
  | [], a :: args => "%!(EXTRA ".toList ++ extraArgs (a :: args) ++ [')']
  | ['%'], _ => "%!(NOVERB)".toList
  | '%' :: '%' :: fmt, args => '%' :: sprintfAux fmt args
  | '%' :: 's' :: fmt, a :: args => a.toList ++ sprintfAux fmt args
  | '%' :: 'v' :: fmt, a :: args => a.toList ++ sprintfAux fmt args
  | '%' :: c :: fmt, [] => "%!".toList ++ c :: "(MISSING)".toList ++ sprintfAux fmt []
  | '%' :: c :: fmt, a :: args =>
      "%!".toList ++ c :: "(string=".toList ++ a.toList ++ ')' :: sprintfAux fmt args
  | c :: fmt, args => c :: sprintfAux fmt args

/-- The call `fmt.Sprintf(format, args...)` with string operands. -/
def Sprintf (format : String) (args : List String) : String :=
  String.mk (sprintfAux format.toList args)

/-! ## Values exchanged with the collaborators -/

/-- A Go `[]byte`. -/
abbrev Bytes := List UInt8

/-- A Go `error` value, identified by its message. -/
structure GoError where
  msg : String
deriving DecidableEq, Repr

/-- The part of `*http.Request` that the package reads or writes.  `Body` is `none`
for the `nil` body; `Header` lists the added pairs in order. -/
structure Request where
  Method : String
  URL : String
  Body : Option Bytes
  Header : List (String × String)
deriving DecidableEq, Repr

/-- The method `req.Header.Add(key, value)`. -/
def Request.HeaderAdd (req : Request) (key value : String) : Request :=
  { req with Header := req.Header ++ [(key, value)] }

/-- A response body (`io.ReadCloser`): the bytes a reader obtains from it and the
error, if any, at which reading stops. -/
structure ReadCloser where
  data : Bytes
  err : Option GoError
deriving DecidableEq, Repr

/-- The part of `*http.Response` that is visible to the package. -/
structure Response where
  StatusCode : Nat
  Header : List (String × String)
  Body : ReadCloser
deriving DecidableEq, Repr

/-- The call `ioutil.ReadAll(r)`: the bytes read so far together with the error. -/
def ReadAll (r : ReadCloser) : Bytes × Option GoError :=
  (r.data, r.err)

/-- The credentials `*auth.Credentials`, seen through the one method the package
calls, `SignRequest`. -/
structure Credentials where
  SignRequest : Request → Except GoError String

/-- The HTTP library: `urlParse` is the verdict of `url.Parse` inside
`http.NewRequest` (`none` when the URL is accepted), `Do` is
`http.DefaultClient.Do`. -/
structure HTTPLib where
  urlParse : String → Option GoError
  Do : Request → Except GoError Response

/-- The token characters of an HTTP method name (RFC 7230 `tchar`), by code point. -/
def isTokenRune (c : Char) : Bool :=
  let n := c.toNat
  (48 ≤ n && n ≤ 57) || (65 ≤ n && n ≤ 90) || (97 ≤ n && n ≤ 122) ||
    [33, 35, 36, 37, 38, 39, 42, 43, 45, 46, 94, 95, 96, 124, 126].contains n

/-- The check `validMethod` of `net/http`: a non-empty string of token characters. -/
def validMethod (method : String) : Bool :=
  !method.isEmpty && method.toList.all isTokenRune

/-- The constructor `http.NewRequest(method, url, body)`: an empty method name
stands for `GET`; an invalid method name and a URL that `url.Parse` rejects are
errors; otherwise the result is a request with the given method, URL and body and an
empty header. -/
def NewRequest (H : HTTPLib) (method url : String) (body : Option Bytes) :
    Except GoError Request :=
  let method := if method.isEmpty then "GET" else method
  if validMethod method then
    match H.urlParse url with
    | some e => .error e
    | none => .ok { Method := method, URL := url, Body := body, Header := [] }
  else
    .error ⟨"net/http: invalid method " ++ method⟩

/-! ## Effects -/

/-- The effects a call performs on its collaborators, in order. -/
inductive Event where
  /-- The call `mac.SignRequest(req)`. -/
  | sign (req : Request)
  /-- The call `http.DefaultClient.Do(req)`: one network round trip. -/
  | send (req : Request)
  /-- The call `ioutil.ReadAll(resp.Body)`. -/
  | readAll
  /-- The deferred `resp.Body.Close()`. -/
  | close
  /-- The call `json.Unmarshal(data, &v)`. -/
  | unmarshal (data : Bytes)
deriving DecidableEq, Repr

/-- The results of a Go function returning `(value, err)`, with the effects of the
call. -/
structure Outcome (α : Type) where
  value : α
  err : Option GoError
  trace : List Event

/-! ## The shared helper -/

/-- The constant `DefaultAPIHost`. -/
def DefaultAPIHost : String := "api.qiniu.com"

/-- Modelled from the spec: the constant `conf.CONTENT_TYPE_JSON` of the package
`github.com/qiniu/api.v7/conf`, which is not part of the sources; the spec gives the
header as `Content-Type: application/json`. -/
def CONTENT_TYPE_JSON : String := "application/json"

/-- The function `getRequest(mac, path)`.  The named results `resData` and `err`
start at their zero values; a bare `return` hands back whatever they hold. -/
def getRequest (H : HTTPLib) (mac : Credentials) (path : String) : Outcome Bytes :=
  let urlStr := Sprintf "https://%s%s" [DefaultAPIHost, path]
  match NewRequest H "POST" urlStr none with
  | .error reqErr => ⟨[], some reqErr, []⟩
  | .ok req =>
    match mac.SignRequest req with
    | .error signErr => ⟨[], some signErr, [.sign req]⟩
    | .ok accessToken =>
      let req1 := (req.HeaderAdd "Authorization" ("QBox " ++ accessToken)).HeaderAdd
        "Content-Type" CONTENT_TYPE_JSON
      match H.Do req1 with
      | .error respErr => ⟨[], some respErr, [.sign req, .send req1]⟩
      | .ok resp =>
        match ReadAll resp.Body with
        | (resData, some ioErr) =>
            ⟨resData, some ioErr, [.sign req, .send req1, .readAll, .close]⟩
        | (resData, none) => ⟨resData, none, [.sign req, .send req1, .readAll, .close]⟩

/-! ## Request and response values -/

/-- The request type `SpaceReq`. -/
structure SpaceReq where
  Bucket : String
  BeginDate : String
  EndDate : String
  Granularity : String
  Region : String
deriving DecidableEq, Repr

/-- The response type `SpaceResp`; a `[]uint64` is a list of naturals, the `nil`
slice being the empty list. -/
structure SpaceResp where
  Times : List Nat
  Datas : List Nat
deriving DecidableEq, Repr

/-- The request type `CountReq`. -/
structure CountReq where
  Bucket : String
  BeginDate : String
  EndDate : String
  Granularity : String
  Region : String
deriving DecidableEq, Repr

/-- The response type `CountResp`. -/
structure CountResp where
  Times : List Nat
  Datas : List Nat
deriving DecidableEq, Repr

/-- The request type `SpaceLineReq`. -/
structure SpaceLineReq where
  Bucket : String
  BeginDate : String
  EndDate : String
  Granularity : String
  Region : String
  NoPredel : String
  OnlyPredel : String
deriving DecidableEq, Repr

/-- The response type `SpaceLineResp`. -/
structure SpaceLineResp where
  Code : Int
  Error : String
  Times : List Nat
  Datas : List Nat
deriving DecidableEq, Repr

/-- The request type `CountLineReq`. -/
structure CountLineReq where
  Bucket : String
  BeginDate : String
  EndDate : String
  Granularity : String
  Region : String
deriving DecidableEq, Repr

/-- The response type `CountLineResp`. -/
structure CountLineResp where
  Times : List Nat
  Datas : List Nat
deriving DecidableEq, Repr

/-- The request type `BlobTransferReq`. -/
structure BlobTransferReq where
  BeginDate : String
  EndDate : String
  Granularity : String
  SelectType : String
  IsOversea : String
  TaskID : String
deriving DecidableEq, Repr

/-- The record type `BlobTransferData`; `Size` is the field of its anonymous struct
`Values`. -/
structure BlobTransferData where
  Time : String
  Size : Nat
deriving DecidableEq, Repr

/-- The response type `BlobTransferResp`. -/
abbrev BlobTransferResp := List BlobTransferData

/-- The request type `RSChTypeReq`. -/
structure RSChTypeReq where
  BeginDate : String
  EndDate : String
  Granularity : String
  SelectType : String
  Bucket : String
  Region : String
deriving DecidableEq, Repr

/-- The record type `RSChTypeData`; `Hits` is the field of its anonymous struct
`Values`. -/
structure RSChTypeData where
  Time : String
  Hits : Nat
deriving DecidableEq, Repr

/-- The response type `RSChTypeResp`. -/
abbrev RSChTypeResp := List RSChTypeData

/-- The request type `BlobIOReq`. -/
structure BlobIOReq where
  BeginDate : String
  EndDate : String
  Granularity : String
  SelectType : String
  Bucket : String
  FType : String
  Domain : String
  Region : String
  Src : String
deriving DecidableEq, Repr

/-- The record type `BlobIOData`; `Hits` and `Flow` are the fields of its anonymous
struct `Values`. -/
structure BlobIOData where
  Time : String
  Hits : Nat
  Flow : Nat
deriving DecidableEq, Repr

/-- The response type `BlobIOResp`. -/
abbrev BlobIOResp := List BlobIOData

/-- The request type `RsPutReq`. -/
structure RsPutReq where
  BeginDate : String
  EndDate : String
  Granularity : String
  SelectType : String
  Bucket : String
  FType : String
  Region : String
deriving DecidableEq, Repr

/-- The record type `RsPutData`; `Hits` is the field of its anonymous struct
`Values`. -/
structure RsPutData where
  Time : String
  Hits : Nat
deriving DecidableEq, Repr

/-- The response type `RsPutResp`. -/
abbrev RsPutResp := List RsPutData

/-- The zero value of `SpaceResp`. -/
def SpaceResp.zero : SpaceResp := ⟨[], []⟩

/-- The zero value of `CountResp`. -/
def CountResp.zero : CountResp := ⟨[], []⟩

/-- The zero value of `SpaceLineResp`. -/
def SpaceLineResp.zero : SpaceLineResp := ⟨0, "", [], []⟩

/-- The zero value of `CountLineResp`. -/
def CountLineResp.zero : CountLineResp := ⟨[], []⟩

/-! ## JSON decoding -/

/-- The JSON library `encoding/json`: `checkValid` is its syntax scan (`none` when
the bytes are valid JSON), and for each response type `store...` is the decoding
pass, which writes into the destination as it goes and may stop with an error after
having written part of it. -/
structure JSONLib where
  checkValid : Bytes → Option GoError
  storeSpaceResp : Bytes → SpaceResp → SpaceResp × Option GoError
  storeCountResp : Bytes → CountResp → CountResp × Option GoError
  storeSpaceLineResp : Bytes → SpaceLineResp → SpaceLineResp × Option GoError
  storeCountLineResp : Bytes → CountLineResp → CountLineResp × Option GoError
  storeBlobTransferResp : Bytes → BlobTransferResp → BlobTransferResp × Option GoError
  storeRSChTypeResp : Bytes → RSChTypeResp → RSChTypeResp × Option GoError
  storeBlobIOResp : Bytes → BlobIOResp → BlobIOResp × Option GoError
  storeRsPutResp : Bytes → RsPutResp → RsPutResp × Option GoError

/-- The call `json.Unmarshal(data, &v)`: the syntax scan of the whole input comes
first, and an input that fails it leaves the destination untouched; then the
decoding pass runs. -/
def Unmarshal {α : Type} (J : JSONLib) (store : Bytes → α → α × Option GoError)
    (data : Bytes) (v : α) : α × Option GoError :=
  match J.checkValid data with
  | some e => (v, some e)
  | none => store data v

/-! ## The eight query methods -/

/-- The type `StatisticManager`. -/
structure StatisticManager where
  mac : Credentials

/-- The constructor `NewStatisticManager`. -/
def NewStatisticManager (mac : Credentials) : StatisticManager := { mac := mac }

/-- The path built by `GetSpace`. -/
def GetSpace.path (req : SpaceReq) : String :=
  Sprintf "/v6/space?bucket=%s&begin=%s&end=%s&g=%s"
    [req.Bucket, req.BeginDate, req.EndDate, req.Granularity]

/-- The method `GetSpace`. -/
def GetSpace (J : JSONLib) (H : HTTPLib) (m : StatisticManager) (req : SpaceReq) :
    Outcome SpaceResp :=
  let path := GetSpace.path req
  match getRequest H m.mac path with
  | ⟨_, some reqErr, tr⟩ => ⟨SpaceResp.zero, some reqErr, tr⟩
  | ⟨resData, none, tr⟩ =>
    match Unmarshal J J.storeSpaceResp resData SpaceResp.zero with
    | (spaceData, some umErr) => ⟨spaceData, some umErr, tr ++ [.unmarshal resData]⟩
    | (spaceData, none) => ⟨spaceData, none, tr ++ [.unmarshal resData]⟩

/-- The path built by `GetCount`. -/
def GetCount.path (req : CountReq) : String :=
  Sprintf "/v6/count?bucket=%s&begin=%s&end=%s&g=%s"
    [req.Bucket, req.BeginDate, req.EndDate, req.Granularity]

/-- The method `GetCount`. -/
def GetCount (J : JSONLib) (H : HTTPLib) (m : StatisticManager) (req : CountReq) :
    Outcome CountResp :=
  let path := GetCount.path req
  match getRequest H m.mac path with
  | ⟨_, some reqErr, tr⟩ => ⟨CountResp.zero, some reqErr, tr⟩
  | ⟨resData, none, tr⟩ =>
    match Unmarshal J J.storeCountResp resData CountResp.zero with
    | (CountData, some umErr) => ⟨CountData, some umErr, tr ++ [.unmarshal resData]⟩
    | (CountData, none) => ⟨CountData, none, tr ++ [.unmarshal resData]⟩

/-- The path built by `GetSpaceLine`. -/
def GetSpaceLine.path (req : SpaceLineReq) : String :=
  Sprintf "/v6/space_line?bucket=%s&region=%s&begin=%s&end=%s&g=%s"
    [req.Bucket, req.Region, req.BeginDate, req.EndDate, req.Granularity]

/-- The method `GetSpaceLine`. -/
def GetSpaceLine (J : JSONLib) (H : HTTPLib) (m : StatisticManager) (req : SpaceLineReq) :
    Outcome SpaceLineResp :=
  let path := GetSpaceLine.path req
  match getRequest H m.mac path with
  | ⟨_, some reqErr, tr⟩ => ⟨SpaceLineResp.zero, some reqErr, tr⟩
  | ⟨resData, none, tr⟩ =>
    match Unmarshal J J.storeSpaceLineResp resData SpaceLineResp.zero with
    | (spaceLineData, some umErr) =>
        ⟨spaceLineData, some umErr, tr ++ [.unmarshal resData]⟩
    | (spaceLineData, none) => ⟨spaceLineData, none, tr ++ [.unmarshal resData]⟩

/-- The path built by `GetCountLine`. -/
def GetCountLine.path (req : CountLineReq) : String :=
  Sprintf "/v6/count_line?bucket=%s&region=%s&begin=%s&end=%s&g=%s"
    [req.Bucket, req.Region, req.BeginDate, req.EndDate, req.Granularity]

/-- The method `GetCountLine`. -/
def GetCountLine (J : JSONLib) (H : HTTPLib) (m : StatisticManager) (req : CountLineReq) :
    Outcome CountLineResp :=
  let path := GetCountLine.path req
  match getRequest H m.mac path with
  | ⟨_, some reqErr, tr⟩ => ⟨CountLineResp.zero, some reqErr, tr⟩
  | ⟨resData, none, tr⟩ =>
    match Unmarshal J J.storeCountLineResp resData CountLineResp.zero with
    | (CountLineData, some umErr) =>
        ⟨CountLineData, some umErr, tr ++ [.unmarshal resData]⟩
    | (CountLineData, none) => ⟨CountLineData, none, tr ++ [.unmarshal resData]⟩

/-- The path built by `GetBlobTransfer`. -/
def GetBlobTransfer.path (req : BlobTransferReq) : String :=
  Sprintf "/v6/blob_transfer?begin=%s&end=%s&g=%s&select=%s&$is_oversea=%s&$taskid=%s"
    [req.BeginDate, req.EndDate, req.Granularity, req.SelectType, req.IsOversea, req.TaskID]

/-- The method `GetBlobTransfer`; the zero value of the slice result is `nil`. -/
def GetBlobTransfer (J : JSONLib) (H : HTTPLib) (m : StatisticManager)
    (req : BlobTransferReq) : Outcome BlobTransferResp :=
  let path := GetBlobTransfer.path req
  match getRequest H m.mac path with
  | ⟨_, some reqErr, tr⟩ => ⟨[], some reqErr, tr⟩
  | ⟨resData, none, tr⟩ =>
    match Unmarshal J J.storeBlobTransferResp resData [] with
    | (blobTransferData, some umErr) =>
        ⟨blobTransferData, some umErr, tr ++ [.unmarshal resData]⟩
    | (blobTransferData, none) => ⟨blobTransferData, none, tr ++ [.unmarshal resData]⟩

/-- The path built by `GetRSChType`. -/
def GetRSChType.path (req : RSChTypeReq) : String :=
  Sprintf "/v6/rs_chtype?begin=%s&end=%s&g=%s&select=%s&$bucket=%s&$region=%s"
    [req.BeginDate, req.EndDate, req.Granularity, req.SelectType, req.Bucket, req.Region]

/-- The method `GetRSChType`. -/
def GetRSChType (J : JSONLib) (H : HTTPLib) (m : StatisticManager) (req : RSChTypeReq) :
    Outcome RSChTypeResp :=
  let path := GetRSChType.path req
  match getRequest H m.mac path with
  | ⟨_, some reqErr, tr⟩ => ⟨[], some reqErr, tr⟩
  | ⟨resData, none, tr⟩ =>
    match Unmarshal J J.storeRSChTypeResp resData [] with
    | (rSChTypeResp, some umErr) => ⟨rSChTypeResp, some umErr, tr ++ [.unmarshal resData]⟩
    | (rSChTypeResp, none) => ⟨rSChTypeResp, none, tr ++ [.unmarshal resData]⟩

/-- The path built by `GetBlobIO`. -/
def GetBlobIO.path (req : BlobIOReq) : String :=
  Sprintf "/v6/blob_io?begin=%s&end=%s&g=%s&select=%s&$bucket=%s&$domain=%s&$region=%s&$src=%s"
    [req.BeginDate, req.EndDate, req.Granularity, req.SelectType, req.Bucket, req.Domain,
      req.Region, req.Src]

/-- The method `GetBlobIO`. -/
def GetBlobIO (J : JSONLib) (H : HTTPLib) (m : StatisticManager) (req : BlobIOReq) :
    Outcome BlobIOResp :=
  let path := GetBlobIO.path req
  match getRequest H m.mac path with
  | ⟨_, some reqErr, tr⟩ => ⟨[], some reqErr, tr⟩
  | ⟨resData, none, tr⟩ =>
    match Unmarshal J J.storeBlobIOResp resData [] with
    | (blobIOResp, some umErr) => ⟨blobIOResp, some umErr, tr ++ [.unmarshal resData]⟩
    | (blobIOResp, none) => ⟨blobIOResp, none, tr ++ [.unmarshal resData]⟩

/-- The path built by `GetRsPut`. -/
def GetRsPut.path (req : RsPutReq) : String :=
  Sprintf "/v6/rs_put?begin=%s&end=%s&g=%s&select=%s&$bucket=%s&$region=%s"
    [req.BeginDate, req.EndDate, req.Granularity, req.SelectType, req.Bucket, req.Region]

/-- The method `GetRsPut`. -/
def GetRsPut (J : JSONLib) (H : HTTPLib) (m : StatisticManager) (req : RsPutReq) :
    Outcome RsPutResp :=
  let path := GetRsPut.path req
  match getRequest H m.mac path with
  | ⟨_, some reqErr, tr⟩ => ⟨[], some reqErr, tr⟩
  | ⟨resData, none, tr⟩ =>
    match Unmarshal J J.storeRsPutResp resData [] with
    | (rsPutResp, some umErr) => ⟨rsPutResp, some umErr, tr ++ [.unmarshal resData]⟩
    | (rsPutResp, none) => ⟨rsPutResp, none, tr ++ [.unmarshal resData]⟩

/-! ## The eight methods as one family -/

/-- A call of one of the eight public methods, with its request value. -/
inductive Query where
  | spaceReq (req : SpaceReq)
  | countReq (req : CountReq)
  | spaceLineReq (req : SpaceLineReq)
  | countLineReq (req : CountLineReq)
  | blobTransferReq (req : BlobTransferReq)
  | rsChTypeReq (req : RSChTypeReq)
  | blobIOReq (req : BlobIOReq)
  | rsPutReq (req : RsPutReq)
deriving DecidableEq, Repr

/-- The value returned by one of the eight public methods. -/
inductive Reply where
  | spaceResp (v : SpaceResp)
  | countResp (v : CountResp)
  | spaceLineResp (v : SpaceLineResp)
  | countLineResp (v : CountLineResp)
  | blobTransferResp (v : BlobTransferResp)
  | rsChTypeResp (v : RSChTypeResp)
  | blobIOResp (v : BlobIOResp)
  | rsPutResp (v : RsPutResp)
deriving DecidableEq, Repr

/-- Relabels the value of an outcome. -/
def Outcome.map {α β : Type} (f : α → β) (o : Outcome α) : Outcome β :=
  ⟨f o.value, o.err, o.trace⟩

/-- Runs the method a query stands for. -/
def call (J : JSONLib) (H : HTTPLib) (m : StatisticManager) : Query → Outcome Reply
  | .spaceReq req => (GetSpace J H m req).map .spaceResp
  | .countReq req => (GetCount J H m req).map .countResp
  | .spaceLineReq req => (GetSpaceLine J H m req).map .spaceLineResp
  | .countLineReq req => (GetCountLine J H m req).map .countLineResp
  | .blobTransferReq req => (GetBlobTransfer J H m req).map .blobTransferResp
  | .rsChTypeReq req => (GetRSChType J H m req).map .rsChTypeResp
  | .blobIOReq req => ( GetBlobIO J H m req).map .blobIOResp
  | .rsPutReq req => (GetRsPut J H m req).map .rsPutResp

/-- The path the method of a query constructs. -/
def Query.path : Query → String
  | .spaceReq req => GetSpace.path req
  | .countReq req => GetCount.path req
  | .spaceLineReq req => GetSpaceLine.path req
  | .countLineReq req => GetCountLine.path req
  | .blobTransferReq req => GetBlobTransfer.path req
  | .rsChTypeReq req => GetRSChType.path req
  | .blobIOReq req => GetBlobIO.path req
  | .rsPutReq req => GetRsPut.path req

/-- The zero value of the response type of a query's method. -/
def Query.zero : Query → Reply
  | .spaceReq _ => .spaceResp SpaceResp.zero
  | .countReq _ => .countResp CountResp.zero
  | .spaceLineReq _ => .spaceLineResp SpaceLineResp.zero
  | .countLineReq _ => .countLineResp CountLineResp.zero
  | .blobTransferReq _ => .blobTransferResp []
  | .rsChTypeReq _ => .rsChTypeResp []
  | .blobIOReq _ => .blobIOResp []
  | .rsPutReq _ => .rsPutResp []

/-- Decoding a response body into a fresh value of the response type of a query's
method: `json.Unmarshal(b, &v)` with `v` at its zero value. -/
def Query.decode (J : JSONLib) : Query → Bytes → Reply × Option GoError
  | .spaceReq _, b =>
      ((Unmarshal J J.storeSpaceResp b SpaceResp.zero).map .spaceResp id)
  | .countReq _, b =>
      ((Unmarshal J J.storeCountResp b CountResp.zero).map .countResp id)
  | .spaceLineReq _, b =>
      ((Unmarshal J J.storeSpaceLineResp b SpaceLineResp.zero).map .spaceLineResp id)
  | .countLineReq _, b =>
      ((Unmarshal J J.storeCountLineResp b CountLineResp.zero).map .countLineResp id)
  | .blobTransferReq _, b =>
      ((Unmarshal J J.storeBlobTransferResp b []).map .blobTransferResp id)
  | .rsChTypeReq _, b => ((Unmarshal J J.storeRSChTypeResp b []).map .rsChTypeResp id)
  | .blobIOReq _, b => ((Unmarshal J J.storeBlobIOResp b []).map .blobIOResp id)
  | .rsPutReq _, b => ((Unmarshal J J.storeRsPutResp b []).map .rsPutResp id)

/-- The common shape of the eight method bodies after the path is built: hand the
path to `getRequest`, return its error with the zero value, or else decode the body
and return what the decoder left together with its error. -/
def Query.run (J : JSONLib) (H : HTTPLib) (m : StatisticManager) (q : Query) :
    Outcome Reply :=
  let o := getRequest H m.mac q.path
  match o.err with
  | some reqErr => ⟨q.zero, some reqErr, o.trace⟩
  | none => ⟨(q.decode J o.value).1, (q.decode J o.value).2, o.trace ++ [.unmarshal o.value]⟩

/-! ## Reading a run -/

/-- In a run with effects `tr`, the signer was invoked and returned `r`. -/
def SignerReturned (mac : Credentials) (tr : List Event) (r : Except GoError String) : Prop :=
  ∃ req, Event.sign req ∈ tr ∧ mac.SignRequest req = r

/-- In a run with effects `tr`, the transport was invoked and returned `r`. -/
def TransportReturned (H : HTTPLib) (tr : List Event) (r : Except GoError Response) : Prop :=
  ∃ req, Event.send req ∈ tr ∧ H.Do req = r

/-- The number of network calls in a run. -/
def networkCalls (tr : List Event) : Nat :=
  tr.countP fun ev => match ev with
    | .send _ => true
    | _ => false

/-- The number of JSON decoding attempts in a run. -/
def decodeCalls (tr : List Event) : Nat :=
  tr.countP fun ev => match ev with
    | .unmarshal _ => true
    | _ => false

/-- In the run of the method of `q`, the signer returned the token `t` and the
transport returned a response whose body reads as `b`, without a read error. -/
def Delivered (J : JSONLib) (H : HTTPLib) (m : StatisticManager) (q : Query) (t : String)
    (b : Bytes) : Prop :=
  SignerReturned m.mac (call J H m q).trace (.ok t) ∧
    ∃ resp, TransportReturned H (call J H m q).trace (.ok resp) ∧
      ReadAll resp.Body = (b, none)

/-- The error `e` of a run was reported by the signer. -/
def FromSigner (m : StatisticManager) (tr : List Event) (e : GoError) : Prop :=
  SignerReturned m.mac tr (.error e)

/-- The error `e` of a run was reported by the transport, either when sending the
request or when reading the body of the response. -/
def FromTransport (H : HTTPLib) (tr : List Event) (e : GoError) : Prop :=
  TransportReturned H tr (.error e) ∨
    ∃ resp, TransportReturned H tr (.ok resp) ∧ (ReadAll resp.Body).2 = some e

/-- The error `e` of a run was reported by the JSON decoder. -/
def FromDecoder (J : JSONLib) (q : Query) (tr : List Event) (e : GoError) : Prop :=
  ∃ b, Event.unmarshal b ∈ tr ∧ (q.decode J b).2 = some e

/-- The error `e` was reported by `http.NewRequest` when the helper built the
request for the path of the query. -/
def FromNewRequest (H : HTTPLib) (q : Query) (e : GoError) : Prop :=
  NewRequest H "POST" ("https://api.qiniu.com" ++ q.path) none = .error e

/-- Two results of the transport that differ at most in the status code. -/
def SameUpToStatus : Except GoError Response → Except GoError Response → Prop
  | .ok a, .ok b => a.Header = b.Header ∧ a.Body = b.Body
  | .error a, .error b => a = b
  | _, _ => False

/-- The public method a query calls, without its request value. -/
def Query.method : Query → Fin 8
  | .spaceReq _ => 0
  | .countReq _ => 1
  | .spaceLineReq _ => 2
  | .countLineReq _ => 3
  | .blobTransferReq _ => 4
  | .rsChTypeReq _ => 5
  | .blobIOReq _ => 6
  | .rsPutReq _ => 7

/-- The request `getRequest` builds for a path, as handed to the signer. -/
def builtRequest (path : String) : Request :=
  { Method := "POST", URL := "https://api.qiniu.com" ++ path, Body := none, Header := [] }

/-- The request `getRequest` hands to the transport for a path and a token. -/
def sentRequest (path token : String) : Request :=
  { Method := "POST", URL := "https://api.qiniu.com" ++ path, Body := none,
    Header := [("Authorization", "QBox " ++ token), ("Content-Type", CONTENT_TYPE_JSON)] }

/-! ## Concrete collaborators -/

/-- The test `stringContainsCTLByte` of `net/url`: an ASCII control character. -/
def stringContainsCTLByte (s : List Char) : Bool :=
  s.any fun c => c.toNat < 32 || c.toNat == 127

/-- The control-character check of `url.Parse`, which `http.NewRequest` runs on the
URL up to its fragment: a URL with an ASCII control character there is rejected (the
library wraps the message with the operation and the URL, which is left out here).
The other checks of `url.Parse` are left out, so this verdict accepts more URLs than
the library does. -/
def urlParseCTL (rawURL : String) : Option GoError :=
  if stringContainsCTLByte (rawURL.toList.takeWhile fun c => c != '#') then
    some ⟨"net/url: invalid control character in URL"⟩
  else
    none

/-- Credentials whose signer returns a fixed token. -/
def tokenMac : Credentials := ⟨fun _ => .ok "ak:c2lnbg=="⟩

/-- Credentials whose signer fails. -/
def failingMac : Credentials := ⟨fun _ => .error ⟨"sign: bad key"⟩⟩

/-- An HTTP library whose transport answers every request with the same status code
and body. -/
def cannedHTTP (status : Nat) (body : ReadCloser) : HTTPLib :=
  ⟨urlParseCTL, fun _ => .ok ⟨status, [], body⟩⟩

/-- An HTTP library whose transport cannot connect. -/
def downHTTP : HTTPLib :=
  ⟨urlParseCTL, fun _ => .error ⟨"dial tcp: connection refused"⟩⟩

/-- A stand-in for the JSON library: it accepts inputs that open with a brace or a
bracket, and its decoders store the input bytes as numbers (one record per byte for
the record lists) and never fail. -/
def toyJSON : JSONLib where
  checkValid b :=
    if b.head? = some 123 ∨ b.head? = some 91 then none
    else some ⟨"invalid character looking for beginning of value"⟩
  storeSpaceResp b _ := (⟨b.map UInt8.toNat, b.map UInt8.toNat⟩, none)
  storeCountResp b _ := (⟨b.map UInt8.toNat, b.map UInt8.toNat⟩, none)
  storeSpaceLineResp b v := (⟨v.Code, v.Error, b.map UInt8.toNat, b.map UInt8.toNat⟩, none)
  storeCountLineResp b _ := (⟨b.map UInt8.toNat, b.map UInt8.toNat⟩, none)
  storeBlobTransferResp b _ := (b.map fun x => ⟨"t", x.toNat⟩, none)
  storeRSChTypeResp b _ := (b.map fun x => ⟨"t", x.toNat⟩, none)
  storeBlobIOResp b _ := (b.map fun x => ⟨"t", x.toNat, x.toNat⟩, none)
  storeRsPutResp b _ := (b.map fun x => ⟨"t", x.toNat⟩, none)

/-- A request for `GetSpace` used in the examples. -/
def sampleSpaceReq : SpaceReq :=
  ⟨"b1", "20200101000000", "20200102000000", "hour", "z0"⟩

/-- A request for `GetSpace` whose bucket name ends in a line feed. -/
def lineFeedSpaceReq : SpaceReq :=
  ⟨"b1\n", "20200101000000", "20200102000000", "hour", "z0"⟩

/-! ## Basic facts -/

theorem call_eq_run (J : JSONLib) (H : HTTPLib) (m : StatisticManager) (q : Query) :
    call J H m q = q.run J H m := by
  cases q <;>
    simp only [call, Query.run, Query.path, Query.zero, Query.decode, GetSpace, GetCount,
      GetSpaceLine, GetCountLine, GetBlobTransfer, GetRSChType, GetBlobIO, GetRsPut,
      Outcome.map] <;>
    (generalize getRequest H m.mac _ = o
     obtain ⟨v, e, tr⟩ := o
     cases e with
     | some e => rfl
     | none =>
       simp only [Prod.map, id]
       split <;> simp_all)

theorem apiURL_eq (path : String) :
    Sprintf "https://%s%s" [DefaultAPIHost, path] = "https://api.qiniu.com" ++ path := by
  apply String.ext
  simp [Sprintf, sprintfAux, DefaultAPIHost]

theorem validMethod_POST : validMethod "POST" = true := by decide

/-- The four ways a run of `getRequest` can go. -/
theorem getRequest_cases (H : HTTPLib) (mac : Credentials) (path : String) :
    (∃ e, NewRequest H "POST" ("https://api.qiniu.com" ++ path) none = .error e ∧
        getRequest H mac path = ⟨[], some e, []⟩) ∨
    (∃ e, NewRequest H "POST" ("https://api.qiniu.com" ++ path) none =
          .ok (builtRequest path) ∧
        mac.SignRequest (builtRequest path) = .error e ∧
        getRequest H mac path = ⟨[], some e, [.sign (builtRequest path)]⟩) ∨
    (∃ t e, NewRequest H "POST" ("https://api.qiniu.com" ++ path) none =
          .ok (builtRequest path) ∧
        mac.SignRequest (builtRequest path) = .ok t ∧
        H.Do (sentRequest path t) = .error e ∧
        getRequest H mac path =
          ⟨[], some e, [.sign (builtRequest path), .send (sentRequest path t)]⟩) ∨
    (∃ t resp, NewRequest H "POST" ("https://api.qiniu.com" ++ path) none =
          .ok (builtRequest path) ∧
        mac.SignRequest (builtRequest path) = .ok t ∧
        H.Do (sentRequest path t) = .ok resp ∧
        getRequest H mac path =
          ⟨resp.Body.data, resp.Body.err,
            [.sign (builtRequest path), .send (sentRequest path t), .readAll, .close]⟩) := by
  unfold getRequest
  simp only [apiURL_eq]
  cases hnew : NewRequest H "POST" ("https://api.qiniu.com" ++ path) none with
  | error e => exact Or.inl ⟨e, rfl, rfl⟩
  | ok req =>
    have hreq : req = builtRequest path := by
      have hm : (if ("POST" : String).isEmpty then "GET" else "POST") = "POST" := by decide
      simp only [NewRequest, hm, validMethod_POST, if_true] at hnew
      split at hnew
      · cases hnew
      · cases hnew; rfl
    subst hreq
    right
    simp only []
    cases hsign : mac.SignRequest (builtRequest path) with
    | error e => exact Or.inl ⟨e, trivial, rfl, rfl⟩
    | ok t =>
      right
      have hsent : ((builtRequest path).HeaderAdd "Authorization" ("QBox " ++ t)).HeaderAdd
          "Content-Type" CONTENT_TYPE_JSON = sentRequest path t := rfl
      simp only [hsent]
      cases hdo : H.Do (sentRequest path t) with
      | error e => exact Or.inl ⟨t, e, trivial, rfl, hdo, rfl⟩
      | ok resp =>
        right
        refine ⟨t, resp, trivial, rfl, hdo, ?_⟩
        obtain ⟨sc, hd, ⟨data, err⟩⟩ := resp
        cases err <;> rfl

theorem getRequest_decodeCalls (H : HTTPLib) (mac : Credentials) (path : String) :
    decodeCalls (getRequest H mac path).trace = 0 := by
  rcases getRequest_cases H mac path with ⟨e, _, hg⟩ | ⟨e, _, _, hg⟩ | ⟨t, e, _, _, _, hg⟩ |
    ⟨t, resp, _, _, _, hg⟩ <;> rw [hg] <;> rfl

theorem run_of_err {J : JSONLib} {H : HTTPLib} {m : StatisticManager} {q : Query}
    {e : GoError} (h : (getRequest H m.mac q.path).err = some e) :
    call J H m q = ⟨q.zero, some e, (getRequest H m.mac q.path).trace⟩ := by
  rw [call_eq_run]
  simp only [Query.run, h]

theorem run_of_ok {J : JSONLib} {H : HTTPLib} {m : StatisticManager} {q : Query}
    (h : (getRequest H m.mac q.path).err = none) :
    call J H m q =
      ⟨(q.decode J (getRequest H m.mac q.path).value).1,
        (q.decode J (getRequest H m.mac q.path).value).2,
        (getRequest H m.mac q.path).trace ++
          [.unmarshal (getRequest H m.mac q.path).value]⟩ := by
  rw [call_eq_run]
  simp only [Query.run, h]

/-- A run of the helper in which the signer returned a token: the helper went on to
the transport with the signed request. -/
theorem getRequest_of_signed {H : HTTPLib} {mac : Credentials} {path t : String}
    (h : SignerReturned mac (getRequest H mac path).trace (.ok t)) :
    mac.SignRequest (builtRequest path) = .ok t ∧
    ((∃ e, H.Do (sentRequest path t) = .error e ∧
        getRequest H mac path =
          ⟨[], some e, [.sign (builtRequest path), .send (sentRequest path t)]⟩) ∨
     (∃ resp, H.Do (sentRequest path t) = .ok resp ∧
        getRequest H mac path =
          ⟨resp.Body.data, resp.Body.err,
            [.sign (builtRequest path), .send (sentRequest path t), .readAll, .close]⟩)) := by
  obtain ⟨req, hmem, hreq⟩ := h
  rcases getRequest_cases H mac path with ⟨e, _, hg⟩ | ⟨e, _, hs, hg⟩ | ⟨t', e, _, hs, hd, hg⟩ |
    ⟨t', resp, _, hs, hd, hg⟩
  · rw [hg] at hmem; simp at hmem
  · rw [hg] at hmem
    simp at hmem
    subst hmem
    rw [hs] at hreq
    cases hreq
  · rw [hg] at hmem
    simp at hmem
    subst hmem
    rw [hs] at hreq
    cases hreq
    exact ⟨hs, Or.inl ⟨e, hd, hg⟩⟩
  · rw [hg] at hmem
    simp at hmem
    subst hmem
    rw [hs] at hreq
    cases hreq
    exact ⟨hs, Or.inr ⟨resp, hd, hg⟩⟩

/-- A run of the helper in which the transport returned a response: the helper
returns what reading the body of that response gives. -/
theorem getRequest_of_response {H : HTTPLib} {mac : Credentials} {path : String}
    {resp : Response}
    (h : TransportReturned H (getRequest H mac path).trace (.ok resp)) :
    (getRequest H mac path).value = resp.Body.data ∧
    (getRequest H mac path).err = resp.Body.err := by
  obtain ⟨req, hmem, hreq⟩ := h
  rcases getRequest_cases H mac path with ⟨e, _, hg⟩ | ⟨e, _, hs, hg⟩ | ⟨t', e, _, hs, hd, hg⟩ |
    ⟨t', resp', _, hs, hd, hg⟩
  · rw [hg] at hmem; simp at hmem
  · rw [hg] at hmem; simp at hmem
  · rw [hg] at hmem
    simp at hmem
    subst hmem
    rw [hd] at hreq
    cases hreq
  · rw [hg] at hmem
    simp at hmem
    subst hmem
    rw [hd] at hreq
    cases hreq
    rw [hg]
    exact ⟨rfl, rfl⟩

theorem call_trace (J : JSONLib) (H : HTTPLib) (m : StatisticManager) (q : Query) :
    (call J H m q).trace = (getRequest H m.mac q.path).trace ∨
    (call J H m q).trace =
      (getRequest H m.mac q.path).trace ++ [.unmarshal (getRequest H m.mac q.path).value] := by
  cases h : (getRequest H m.mac q.path).err with
  | some e => left; rw [run_of_err h]
  | none => right; rw [run_of_ok h]

theorem sign_mem_call {J : JSONLib} {H : HTTPLib} {m : StatisticManager} {q : Query}
    {req : Request} (h : Event.sign req ∈ (call J H m q).trace) :
    Event.sign req ∈ (getRequest H m.mac q.path).trace := by
  rcases call_trace J H m q with ht | ht <;> rw [ht] at h
  · exact h
  · simpa using h

theorem send_mem_call {J : JSONLib} {H : HTTPLib} {m : StatisticManager} {q : Query}
    {req : Request} (h : Event.send req ∈ (call J H m q).trace) :
    Event.send req ∈ (getRequest H m.mac q.path).trace := by
  rcases call_trace J H m q with ht | ht <;> rw [ht] at h
  · exact h
  · simpa using h

/-- A run of a method in which the transport returned a response whose body reads
as `b` without error: the method returns what decoding `b` gives. -/
theorem call_of_body {J : JSONLib} {H : HTTPLib} {m : StatisticManager} {q : Query}
    {resp : Response} {b : Bytes}
    (hresp : TransportReturned H (call J H m q).trace (.ok resp))
    (hbody : ReadAll resp.Body = (b, none)) :
    (call J H m q).value = (q.decode J b).1 ∧ (call J H m q).err = (q.decode J b).2 := by
  obtain ⟨req, hmem, hreq⟩ := hresp
  obtain ⟨hv, he⟩ := getRequest_of_response ⟨req, send_mem_call hmem, hreq⟩
  simp only [ReadAll, Prod.mk.injEq] at hbody
  rw [hbody.1] at hv
  rw [hbody.2] at he
  rw [run_of_ok he, hv]
  exact ⟨rfl, rfl⟩

theorem decode_invalid {J : JSONLib} {b : Bytes} {e : GoError}
    (h : J.checkValid b = some e) (q : Query) : q.decode J b = (q.zero, some e) := by
  cases q <;> simp [Query.decode, Query.zero, Unmarshal, h]

theorem decode_congr (J : JSONLib) {q q' : Query} (h : q.method = q'.method) :
    q.decode J = q'.decode J := by
  cases q <;> cases q' <;> first | rfl | (simp [Query.method] at h)

theorem getRequest_congr {H₁ H₂ : HTTPLib} (mac : Credentials) (path : String)
    (hurl : H₁.urlParse = H₂.urlParse)
    (hdo : ∀ req, SameUpToStatus (H₁.Do req) (H₂.Do req)) :
    getRequest H₁ mac path = getRequest H₂ mac path := by
  have hnew : NewRequest H₁ "POST" ("https://api.qiniu.com" ++ path) none =
      NewRequest H₂ "POST" ("https://api.qiniu.com" ++ path) none := by
    simp only [NewRequest, hurl]
  rcases getRequest_cases H₁ mac path with ⟨e, h1, hg⟩ | ⟨e, h1, hs, hg⟩ |
    ⟨t, e, h1, hs, hd, hg⟩ | ⟨t, resp, h1, hs, hd, hg⟩ <;>
  rcases getRequest_cases H₂ mac path with ⟨e', h1', hg'⟩ | ⟨e', h1', hs', hg'⟩ |
    ⟨t', e', h1', hs', hd', hg'⟩ | ⟨t', resp', h1', hs', hd', hg'⟩ <;>
  rw [hg, hg'] <;> rw [h1, h1'] at hnew <;> cases hnew <;>
  first
  | rfl
  | (rw [hs] at hs'
     cases hs' <;>
     first
     | rfl
     | (have hx := hdo (sentRequest path t)
        rw [hd, hd'] at hx
        simp only [SameUpToStatus] at hx <;>
        first
        | rw [hx]
        | rw [hx.2]))

/-! ## Path construction -/

/-- C1: each of the eight public methods builds its path as the fixed template of
its endpoint with the request fields substituted verbatim, in the positions of the
template; for the request with bucket `b1`, begin `20200101000000`, end
`20200102000000` and granularity `hour`, `GetSpace` builds exactly
`/v6/space?bucket=b1&begin=20200101000000&end=20200102000000&g=hour`. -/
theorem path_is_template :
    (∀ req : SpaceReq, GetSpace.path req =
      "/v6/space?bucket=" ++ req.Bucket ++ "&begin=" ++ req.BeginDate ++ "&end=" ++
        req.EndDate ++ "&g=" ++ req.Granularity) ∧
    (∀ req : CountReq, GetCount.path req =
      "/v6/count?bucket=" ++ req.Bucket ++ "&begin=" ++ req.BeginDate ++ "&end=" ++
        req.EndDate ++ "&g=" ++ req.Granularity) ∧
    (∀ req : SpaceLineReq, GetSpaceLine.path req =
      "/v6/space_line?bucket=" ++ req.Bucket ++ "&region=" ++ req.Region ++ "&begin=" ++
        req.BeginDate ++ "&end=" ++ req.EndDate ++ "&g=" ++ req.Granularity) ∧
    (∀ req : CountLineReq, GetCountLine.path req =
      "/v6/count_line?bucket=" ++ req.Bucket ++ "&region=" ++ req.Region ++ "&begin=" ++
        req.BeginDate ++ "&end=" ++ req.EndDate ++ "&g=" ++ req.Granularity) ∧
    (∀ req : BlobTransferReq, GetBlobTransfer.path req =
      "/v6/blob_transfer?begin=" ++ req.BeginDate ++ "&end=" ++ req.EndDate ++ "&g=" ++
        req.Granularity ++ "&select=" ++ req.SelectType ++ "&$is_oversea=" ++
        req.IsOversea ++ "&$taskid=" ++ req.TaskID) ∧
    (∀ req : RSChTypeReq, GetRSChType.path req =
      "/v6/rs_chtype?begin=" ++ req.BeginDate ++ "&end=" ++ req.EndDate ++ "&g=" ++
        req.Granularity ++ "&select=" ++ req.SelectType ++ "&$bucket=" ++ req.Bucket ++
        "&$region=" ++ req.Region) ∧
    (∀ req : BlobIOReq, GetBlobIO.path req =
      "/v6/blob_io?begin=" ++ req.BeginDate ++ "&end=" ++ req.EndDate ++ "&g=" ++
        req.Granularity ++ "&select=" ++ req.SelectType ++ "&$bucket=" ++ req.Bucket ++
        "&$domain=" ++ req.Domain ++ "&$region=" ++ req.Region ++ "&$src=" ++ req.Src) ∧
    (∀ req : RsPutReq, GetRsPut.path req =
      "/v6/rs_put?begin=" ++ req.BeginDate ++ "&end=" ++ req.EndDate ++ "&g=" ++
        req.Granularity ++ "&select=" ++ req.SelectType ++ "&$bucket=" ++ req.Bucket ++
        "&$region=" ++ req.Region) ∧
    (∀ region : String,
      GetSpace.path ⟨"b1", "20200101000000", "20200102000000", "hour", region⟩ =
        "/v6/space?bucket=b1&begin=20200101000000&end=20200102000000&g=hour") := by
  refine ⟨?_, ?_, ?_, ?_, ?_, ?_, ?_, ?_, ?_⟩ <;> intro req <;> apply String.ext <;>
    simp [GetSpace.path, GetCount.path, GetSpaceLine.path, GetCountLine.path,
      GetBlobTransfer.path, GetRSChType.path, GetBlobIO.path, GetRsPut.path, Sprintf,
      sprintfAux]

/-- C9 (evaluation of the code): request values that differ in exactly one field,
namely `Region` of `SpaceReq` and of `CountReq`, `NoPredel` and `OnlyPredel` of
`SpaceLineReq`, `FType` of `BlobIOReq` and of `RsPutReq`, for which the method builds
the same path: these fields are not interpolated. -/
theorem dropped_fields_same_path :
    ((⟨"b", "1", "2", "day", "z0"⟩ : SpaceReq) ≠ ⟨"b", "1", "2", "day", "z1"⟩ ∧
      GetSpace.path ⟨"b", "1", "2", "day", "z0"⟩ =
        GetSpace.path ⟨"b", "1", "2", "day", "z1"⟩) ∧
    ((⟨"b", "1", "2", "day", "z0"⟩ : CountReq) ≠ ⟨"b", "1", "2", "day", "z1"⟩ ∧
      GetCount.path ⟨"b", "1", "2", "day", "z0"⟩ =
        GetCount.path ⟨"b", "1", "2", "day", "z1"⟩) ∧
    ((⟨"b", "1", "2", "day", "z0", "", ""⟩ : SpaceLineReq) ≠
        ⟨"b", "1", "2", "day", "z0", "1", ""⟩ ∧
      GetSpaceLine.path ⟨"b", "1", "2", "day", "z0", "", ""⟩ =
        GetSpaceLine.path ⟨"b", "1", "2", "day", "z0", "1", ""⟩) ∧
    ((⟨"b", "1", "2", "day", "z0", "", ""⟩ : SpaceLineReq) ≠
        ⟨"b", "1", "2", "day", "z0", "", "1"⟩ ∧
      GetSpaceLine.path ⟨"b", "1", "2", "day", "z0", "", ""⟩ =
        GetSpaceLine.path ⟨"b", "1", "2", "day", "z0", "", "1"⟩) ∧
    ((⟨"1", "2", "day", "flow", "b", "0", "d", "z0", "origin"⟩ : BlobIOReq) ≠
        ⟨"1", "2", "day", "flow", "b", "1", "d", "z0", "origin"⟩ ∧
      GetBlobIO.path ⟨"1", "2", "day", "flow", "b", "0", "d", "z0", "origin"⟩ =
        GetBlobIO.path ⟨"1", "2", "day", "flow", "b", "1", "d", "z0", "origin"⟩) ∧
    ((⟨"1", "2", "day", "hits", "b", "0", "z0"⟩ : RsPutReq) ≠
        ⟨"1", "2", "day", "hits", "b", "1", "z0"⟩ ∧
      GetRsPut.path ⟨"1", "2", "day", "hits", "b", "0", "z0"⟩ =
        GetRsPut.path ⟨"1", "2", "day", "hits", "b", "1", "z0"⟩) := by
  decide

/-- C10: path construction is not injective on the fields it uses: the two
`SpaceReq` values with bucket `a&begin=x`, begin `y` and with bucket `a`, begin
`x&begin=y` agree on `EndDate`, `Granularity` and `Region`, differ in `Bucket` and in
`BeginDate`, and `GetSpace` builds the same path for both. -/
theorem path_not_injective :
    ∃ r₁ r₂ : SpaceReq,
      r₁.Bucket = "a&begin=x" ∧ r₁.BeginDate = "y" ∧
      r₂.Bucket = "a" ∧ r₂.BeginDate = "x&begin=y" ∧
      r₁.EndDate = r₂.EndDate ∧ r₁.Granularity = r₂.Granularity ∧ r₁.Region = r₂.Region ∧
      r₁.Bucket ≠ r₂.Bucket ∧ r₁.BeginDate ≠ r₂.BeginDate ∧
      GetSpace.path r₁ = GetSpace.path r₂ ∧
      GetSpace.path r₁ = "/v6/space?bucket=a&begin=x&begin=y&end=2&g=day" :=
  ⟨⟨"a&begin=x", "y", "2", "day", "z0"⟩, ⟨"a", "x&begin=y", "2", "day", "z0"⟩, by decide⟩

/-! ## The shared helper -/

/-- C2: in `getRequest`, for every path, if the signer fails with error `e` then no
network call is made and the helper returns exactly `e` with an empty result; so does
every public method that hands this path to the helper, with the zero value of its
response type. -/
theorem signer_failure_stops (J : JSONLib) (H : HTTPLib) (m : StatisticManager)
    (path : String) (e : GoError)
    (h : SignerReturned m.mac (getRequest H m.mac path).trace (.error e)) :
    networkCalls (getRequest H m.mac path).trace = 0 ∧
    (getRequest H m.mac path).value = [] ∧
    (getRequest H m.mac path).err = some e ∧
    ∀ q : Query, q.path = path →
      networkCalls (call J H m q).trace = 0 ∧
      (call J H m q).value = q.zero ∧
      (call J H m q).err = some e := by
  have key : getRequest H m.mac path = ⟨[], some e, [.sign (builtRequest path)]⟩ := by
    obtain ⟨req, hmem, hreq⟩ := h
    rcases getRequest_cases H m.mac path with ⟨e', _, hg⟩ | ⟨e', _, hs, hg⟩ |
      ⟨t, e', _, hs, _, hg⟩ | ⟨t, resp, _, hs, _, hg⟩
    · rw [hg] at hmem; simp at hmem
    · rw [hg] at hmem
      simp at hmem
      subst hmem
      rw [hs] at hreq
      cases hreq
      exact hg
    · rw [hg] at hmem
      simp at hmem
      subst hmem
      rw [hs] at hreq
      cases hreq
    · rw [hg] at hmem
      simp at hmem
      subst hmem
      rw [hs] at hreq
      cases hreq
  refine ⟨by rw [key]; rfl, by rw [key], by rw [key], ?_⟩
  intro q hq
  subst hq
  have herr : (getRequest H m.mac q.path).err = some e := by rw [key]
  rw [run_of_err herr, key]
  exact ⟨rfl, rfl, rfl⟩

/-- C2 at a concrete run: failing credentials, sample `GetSpace` request. -/
theorem signer_failure_stops_witness :
    SignerReturned failingMac
      (getRequest (cannedHTTP 200 ⟨[123, 125], none⟩) failingMac
        (GetSpace.path sampleSpaceReq)).trace (.error ⟨"sign: bad key"⟩) ∧
    (call toyJSON (cannedHTTP 200 ⟨[123, 125], none⟩) ⟨failingMac⟩
      (.spaceReq sampleSpaceReq)).err = some ⟨"sign: bad key"⟩ ∧
    networkCalls (call toyJSON (cannedHTTP 200 ⟨[123, 125], none⟩) ⟨failingMac⟩
      (.spaceReq sampleSpaceReq)).trace = 0 :=
  have h : SignerReturned failingMac
      (getRequest (cannedHTTP 200 ⟨[123, 125], none⟩) failingMac
        (GetSpace.path sampleSpaceReq)).trace (.error ⟨"sign: bad key"⟩) :=
    ⟨builtRequest (GetSpace.path sampleSpaceReq), by decide, rfl⟩
  have r := (signer_failure_stops toyJSON (cannedHTTP 200 ⟨[123, 125], none⟩) ⟨failingMac⟩
    (GetSpace.path sampleSpaceReq) ⟨"sign: bad key"⟩ h).2.2.2 (.spaceReq sampleSpaceReq) rfl
  ⟨h, r.2.2, r.1⟩

/-- C8: for every path `p` and every token `t` returned by the signer, the signer was
invoked on the request with method `POST`, URL `https://api.qiniu.com` followed by
`p`, no body and no header, and the request handed to the transport is that request
with the header `Authorization` set to `QBox ` followed by `t` and the header
`Content-Type` set to the JSON content type. -/
theorem sent_request_shape (H : HTTPLib) (mac : Credentials) (p t : String)
    (h : SignerReturned mac (getRequest H mac p).trace (.ok t)) :
    ∃ rest : List Event,
      (getRequest H mac p).trace =
        Event.sign
          { Method := "POST", URL := "https://api.qiniu.com" ++ p, Body := none,
            Header := [] } ::
        Event.send
          { Method := "POST", URL := "https://api.qiniu.com" ++ p, Body := none,
            Header := [("Authorization", "QBox " ++ t),
              ("Content-Type", CONTENT_TYPE_JSON)] } :: rest ∧
      networkCalls rest = 0 := by
  obtain ⟨_, ⟨e, _, hg⟩ | ⟨resp, _, hg⟩⟩ := getRequest_of_signed h
  · exact ⟨[], by rw [hg]; rfl, rfl⟩
  · exact ⟨[.readAll, .close], by rw [hg]; rfl, rfl⟩

/-- C8 at a concrete run: signing credentials, sample `GetSpace` request. -/
theorem sent_request_shape_witness :
    ∃ rest : List Event,
      (getRequest (cannedHTTP 200 ⟨[123, 125], none⟩) tokenMac
          "/v6/space?bucket=b1&begin=20200101000000&end=20200102000000&g=hour").trace =
        Event.sign
          { Method := "POST",
            URL := "https://api.qiniu.com" ++
              "/v6/space?bucket=b1&begin=20200101000000&end=20200102000000&g=hour",
            Body := none, Header := [] } ::
        Event.send
          { Method := "POST",
            URL := "https://api.qiniu.com" ++
              "/v6/space?bucket=b1&begin=20200101000000&end=20200102000000&g=hour",
            Body := none,
            Header := [("Authorization", "QBox " ++ "ak:c2lnbg=="),
              ("Content-Type", CONTENT_TYPE_JSON)] } :: rest ∧
      networkCalls rest = 0 :=
  sent_request_shape (cannedHTTP 200 ⟨[123, 125], none⟩) tokenMac
    "/v6/space?bucket=b1&begin=20200101000000&end=20200102000000&g=hour" "ak:c2lnbg=="
    ⟨builtRequest "/v6/space?bucket=b1&begin=20200101000000&end=20200102000000&g=hour",
      by decide, rfl⟩

/-! ## Error propagation in the methods -/

/-- C3: for each of the eight public methods and every request, if the shared helper
fails with error `e`, the method returns exactly `e` together with the zero value of
its response type, and makes no attempt at JSON decoding. -/
theorem helper_error_propagates (J : JSONLib) (H : HTTPLib) (m : StatisticManager)
    (q : Query) (e : GoError) (h : (getRequest H m.mac q.path).err = some e) :
    (call J H m q).err = some e ∧
    (call J H m q).value = q.zero ∧
    decodeCalls (call J H m q).trace = 0 := by
  rw [run_of_err h]
  exact ⟨rfl, rfl, getRequest_decodeCalls H m.mac q.path⟩

/-- C3 at a concrete run: the transport cannot connect. -/
theorem helper_error_propagates_witness :
    (getRequest downHTTP tokenMac (Query.blobIOReq
      ⟨"1", "2", "day", "flow", "b", "0", "d", "z0", "origin"⟩).path).err =
        some ⟨"dial tcp: connection refused"⟩ ∧
    (call toyJSON downHTTP ⟨tokenMac⟩ (Query.blobIOReq
      ⟨"1", "2", "day", "flow", "b", "0", "d", "z0", "origin"⟩)).err =
        some ⟨"dial tcp: connection refused"⟩ ∧
    (call toyJSON downHTTP ⟨tokenMac⟩ (Query.blobIOReq
      ⟨"1", "2", "day", "flow", "b", "0", "d", "z0", "origin"⟩)).value = .blobIOResp [] :=
  have h : (getRequest downHTTP tokenMac (Query.blobIOReq
      ⟨"1", "2", "day", "flow", "b", "0", "d", "z0", "origin"⟩).path).err =
        some ⟨"dial tcp: connection refused"⟩ := by decide
  have r := helper_error_propagates toyJSON downHTTP ⟨tokenMac⟩ (Query.blobIOReq
      ⟨"1", "2", "day", "flow", "b", "0", "d", "z0", "origin"⟩) _ h
  ⟨h, r.1, r.2.1⟩

/-! ## Decoding -/

/-- C4: for each of the eight public methods, every request and every byte sequence
`b` that is not valid JSON (the syntax scan rejects it with error `e`): if signing
succeeds and the transport returns a response whose body reads as `b`, the method
fails with `e` and returns the zero value of its response type. -/
theorem invalid_json_no_partial (J : JSONLib) (H : HTTPLib) (m : StatisticManager)
    (q : Query) (t : String) (b : Bytes) (e : GoError)
    (hrun : Delivered J H m q t b) (hbad : J.checkValid b = some e) :
    (call J H m q).err = some e ∧ (call J H m q).value = q.zero := by
  obtain ⟨_, resp, hresp, hbody⟩ := hrun
  obtain ⟨hv, he⟩ := call_of_body hresp hbody
  rw [decode_invalid hbad] at hv he
  exact ⟨he, hv⟩

/-- C4 at a concrete run: the body is the text `no`. -/
theorem invalid_json_no_partial_witness :
    toyJSON.checkValid [110, 111] =
      some ⟨"invalid character looking for beginning of value"⟩ ∧
    (call toyJSON (cannedHTTP 200 ⟨[110, 111], none⟩) ⟨tokenMac⟩
      (.rsPutReq ⟨"1", "2", "day", "hits", "b", "0", "z0"⟩)).err =
        some ⟨"invalid character looking for beginning of value"⟩ ∧
    (call toyJSON (cannedHTTP 200 ⟨[110, 111], none⟩) ⟨tokenMac⟩
      (.rsPutReq ⟨"1", "2", "day", "hits", "b", "0", "z0"⟩)).value = .rsPutResp [] :=
  have hbad : toyJSON.checkValid [110, 111] =
      some ⟨"invalid character looking for beginning of value"⟩ := by decide
  have r := invalid_json_no_partial toyJSON (cannedHTTP 200 ⟨[110, 111], none⟩) ⟨tokenMac⟩
    (.rsPutReq ⟨"1", "2", "day", "hits", "b", "0", "z0"⟩) "ak:c2lnbg==" [110, 111] _
    ⟨⟨builtRequest (GetRsPut.path ⟨"1", "2", "day", "hits", "b", "0", "z0"⟩),
        by decide, rfl⟩,
      ⟨200, [], ⟨[110, 111], none⟩⟩,
      ⟨sentRequest (GetRsPut.path ⟨"1", "2", "day", "hits", "b", "0", "z0"⟩) "ak:c2lnbg==",
        by decide, rfl⟩, rfl⟩
    hbad
  ⟨hbad, r.1, r.2⟩

/-- C5: for each of the eight public methods, every request, every token the signer
returns and every response body `b` the transport returns: if decoding `b` into the
response type of the method succeeds with value `v`, the method returns `v` with no
error; a second run of the same method, with any other request, credentials, token
and transport, that receives the same body returns the same `v`. -/
theorem decoded_value_returned (J : JSONLib) (H H' : HTTPLib) (m m' : StatisticManager)
    (q q' : Query) (t t' : String) (b : Bytes) (v : Reply)
    (hq : q.method = q'.method)
    (hrun : Delivered J H m q t b) (hrun' : Delivered J H' m' q' t' b)
    (hdec : q.decode J b = (v, none)) :
    (call J H m q).value = v ∧ (call J H m q).err = none ∧
    (call J H' m' q').value = v ∧ (call J H' m' q').err = none := by
  obtain ⟨_, resp, hresp, hbody⟩ := hrun
  obtain ⟨_, resp', hresp', hbody'⟩ := hrun'
  obtain ⟨hv, he⟩ := call_of_body hresp hbody
  obtain ⟨hv', he'⟩ := call_of_body hresp' hbody'
  rw [← decode_congr J hq, hdec] at hv' he'
  rw [hdec] at hv he
  exact ⟨hv, he, hv', he'⟩

/-- C5 at two concrete runs of `GetSpace` that receive the same body. -/
theorem decoded_value_returned_witness :
    (call toyJSON (cannedHTTP 200 ⟨[123, 125], none⟩) ⟨tokenMac⟩
      (.spaceReq sampleSpaceReq)).value = .spaceResp ⟨[123, 125], [123, 125]⟩ ∧
    (call toyJSON (cannedHTTP 200 ⟨[123, 125], none⟩) ⟨tokenMac⟩
      (.spaceReq sampleSpaceReq)).err = none ∧
    (call toyJSON (cannedHTTP 404 ⟨[123, 125], none⟩) ⟨⟨fun _ => .ok "other"⟩⟩
      (.spaceReq ⟨"b2", "3", "4", "day", ""⟩)).value = .spaceResp ⟨[123, 125], [123, 125]⟩ ∧
    (call toyJSON (cannedHTTP 404 ⟨[123, 125], none⟩) ⟨⟨fun _ => .ok "other"⟩⟩
      (.spaceReq ⟨"b2", "3", "4", "day", ""⟩)).err = none :=
  decoded_value_returned toyJSON (cannedHTTP 200 ⟨[123, 125], none⟩)
    (cannedHTTP 404 ⟨[123, 125], none⟩) ⟨tokenMac⟩ ⟨⟨fun _ => .ok "other"⟩⟩
    (.spaceReq sampleSpaceReq) (.spaceReq ⟨"b2", "3", "4", "day", ""⟩)
    "ak:c2lnbg==" "other" [123, 125] (.spaceResp ⟨[123, 125], [123, 125]⟩) rfl
    ⟨⟨builtRequest (GetSpace.path sampleSpaceReq), by decide, rfl⟩,
      ⟨200, [], ⟨[123, 125], none⟩⟩,
      ⟨sentRequest (GetSpace.path sampleSpaceReq) "ak:c2lnbg==", by decide, rfl⟩, rfl⟩
    ⟨⟨builtRequest (GetSpace.path ⟨"b2", "3", "4", "day", ""⟩), by decide, rfl⟩,
      ⟨404, [], ⟨[123, 125], none⟩⟩,
      ⟨sentRequest (GetSpace.path ⟨"b2", "3", "4", "day", ""⟩) "other", by decide, rfl⟩,
      rfl⟩
    (by decide)

/-- C7: for each of the eight public methods, with the request and the credentials
fixed: two transports whose results agree on everything but the status code of the
response yield the same returned value and the same error. -/
theorem status_code_ignored (J : JSONLib) (H₁ H₂ : HTTPLib) (m : StatisticManager)
    (q : Query) (hurl : H₁.urlParse = H₂.urlParse)
    (hdo : ∀ req, SameUpToStatus (H₁.Do req) (H₂.Do req)) :
    (call J H₁ m q).value = (call J H₂ m q).value ∧
    (call J H₁ m q).err = (call J H₂ m q).err := by
  rw [call_eq_run, call_eq_run]
  simp only [Query.run, getRequest_congr m.mac q.path hurl hdo]
  exact ⟨trivial, trivial⟩

/-- C7 at a concrete run: the same decodable body under status 200 and under status
500; the response with status 500 is returned as a success. -/
theorem status_code_ignored_witness :
    ((call toyJSON (cannedHTTP 200 ⟨[91, 93], none⟩) ⟨tokenMac⟩
        (.blobTransferReq ⟨"1", "2", "day", "size", "0", "7"⟩)).value =
      (call toyJSON (cannedHTTP 500 ⟨[91, 93], none⟩) ⟨tokenMac⟩
        (.blobTransferReq ⟨"1", "2", "day", "size", "0", "7"⟩)).value ∧
     (call toyJSON (cannedHTTP 200 ⟨[91, 93], none⟩) ⟨tokenMac⟩
        (.blobTransferReq ⟨"1", "2", "day", "size", "0", "7"⟩)).err =
      (call toyJSON (cannedHTTP 500 ⟨[91, 93], none⟩) ⟨tokenMac⟩
        (.blobTransferReq ⟨"1", "2", "day", "size", "0", "7"⟩)).err) ∧
    (call toyJSON (cannedHTTP 500 ⟨[91, 93], none⟩) ⟨tokenMac⟩
        (.blobTransferReq ⟨"1", "2", "day", "size", "0", "7"⟩)).err = none ∧
    (call toyJSON (cannedHTTP 500 ⟨[91, 93], none⟩) ⟨tokenMac⟩
        (.blobTransferReq ⟨"1", "2", "day", "size", "0", "7"⟩)).value =
      .blobTransferResp [⟨"t", 91⟩, ⟨"t", 93⟩] :=
  ⟨status_code_ignored toyJSON (cannedHTTP 200 ⟨[91, 93], none⟩)
      (cannedHTTP 500 ⟨[91, 93], none⟩) ⟨tokenMac⟩
      (.blobTransferReq ⟨"1", "2", "day", "size", "0", "7"⟩) rfl
      (fun _ => by simp [SameUpToStatus, cannedHTTP]),
    by decide, by decide⟩

/-! ## Where errors come from -/

/-- C6 as stated fails: with a bucket name that ends in a line feed, `GetSpace`
returns the error of `http.NewRequest`; neither the signer nor the transport nor the
decoder has been invoked in that run, and none of them ever fails in this setting. -/
theorem three_error_kinds_refuted :
    ¬ ∀ (J : JSONLib) (H : HTTPLib) (m : StatisticManager) (q : Query) (e : GoError),
        (call J H m q).err = some e →
          FromSigner m (call J H m q).trace e ∨ FromTransport H (call J H m q).trace e ∨
            FromDecoder J q (call J H m q).trace e := by
  intro h
  have htrace : (call toyJSON (cannedHTTP 200 ⟨[123, 125], none⟩) ⟨tokenMac⟩
      (.spaceReq lineFeedSpaceReq)).trace = [] := by decide
  have herr : (call toyJSON (cannedHTTP 200 ⟨[123, 125], none⟩) ⟨tokenMac⟩
      (.spaceReq lineFeedSpaceReq)).err =
        some ⟨"net/url: invalid control character in URL"⟩ := by decide
  have hc := h toyJSON (cannedHTTP 200 ⟨[123, 125], none⟩) ⟨tokenMac⟩
    (.spaceReq lineFeedSpaceReq) _ herr
  rw [htrace] at hc
  simp [FromSigner, FromTransport, FromDecoder, SignerReturned, TransportReturned] at hc

/-- C6, amended: for each of the eight public methods and every request value,
whenever the method returns an error, that error is of one of four kinds: the error
`http.NewRequest` reported when the helper built the request, the error reported by
the signer, an error reported by the transport (sending the request or reading the
body), or the JSON decode error. -/
theorem four_error_kinds (J : JSONLib) (H : HTTPLib) (m : StatisticManager) (q : Query)
    (e : GoError) (h : (call J H m q).err = some e) :
    FromNewRequest H q e ∨ FromSigner m (call J H m q).trace e ∨
      FromTransport H (call J H m q).trace e ∨ FromDecoder J q (call J H m q).trace e := by
  rcases getRequest_cases H m.mac q.path with ⟨e', h1, hg⟩ | ⟨e', h1, hs, hg⟩ |
    ⟨t, e', h1, hs, hd, hg⟩ | ⟨t, resp, h1, hs, hd, hg⟩
  · have herr : (getRequest H m.mac q.path).err = some e' := by rw [hg]
    rw [run_of_err herr] at h
    cases h
    exact Or.inl h1
  · have herr : (getRequest H m.mac q.path).err = some e' := by rw [hg]
    rw [run_of_err herr] at h ⊢
    cases h
    refine Or.inr (Or.inl ⟨builtRequest q.path, ?_, hs⟩)
    rw [hg]
    simp
  · have herr : (getRequest H m.mac q.path).err = some e' := by rw [hg]
    rw [run_of_err herr] at h ⊢
    cases h
    refine Or.inr (Or.inr (Or.inl (Or.inl ⟨sentRequest q.path t, ?_, hd⟩)))
    rw [hg]
    simp
  · cases hrd : resp.Body.err with
    | some e' =>
      have herr : (getRequest H m.mac q.path).err = some e' := by rw [hg]; exact hrd
      rw [run_of_err herr] at h ⊢
      cases h
      refine Or.inr (Or.inr (Or.inl (Or.inr ⟨resp, ⟨sentRequest q.path t, ?_, hd⟩, hrd⟩)))
      rw [hg]
      simp
    | none =>
      have herr : (getRequest H m.mac q.path).err = none := by rw [hg]; exact hrd
      rw [run_of_ok herr] at h ⊢
      refine Or.inr (Or.inr (Or.inr ⟨(getRequest H m.mac q.path).value, ?_, h⟩))
      simp

/-- C6, amended, at the run that refutes the original: the error is the one of
`http.NewRequest`. -/
theorem four_error_kinds_witness :
    (call toyJSON (cannedHTTP 200 ⟨[123, 125], none⟩) ⟨tokenMac⟩
      (.spaceReq lineFeedSpaceReq)).err =
        some ⟨"net/url: invalid control character in URL"⟩ ∧
    (FromNewRequest (cannedHTTP 200 ⟨[123, 125], none⟩) (.spaceReq lineFeedSpaceReq)
        ⟨"net/url: invalid control character in URL"⟩ ∨
      FromSigner ⟨tokenMac⟩ (call toyJSON (cannedHTTP 200 ⟨[123, 125], none⟩) ⟨tokenMac⟩
        (.spaceReq lineFeedSpaceReq)).trace ⟨"net/url: invalid control character in URL"⟩ ∨
      FromTransport (cannedHTTP 200 ⟨[123, 125], none⟩)
        (call toyJSON (cannedHTTP 200 ⟨[123, 125], none⟩) ⟨tokenMac⟩
          (.spaceReq lineFeedSpaceReq)).trace
        ⟨"net/url: invalid control character in URL"⟩ ∨
      FromDecoder toyJSON (.spaceReq lineFeedSpaceReq)
        (call toyJSON (cannedHTTP 200 ⟨[123, 125], none⟩) ⟨tokenMac⟩
          (.spaceReq lineFeedSpaceReq)).trace
        ⟨"net/url: invalid control character in URL"⟩) :=
  have herr : (call toyJSON (cannedHTTP 200 ⟨[123, 125], none⟩) ⟨tokenMac⟩
      (.spaceReq lineFeedSpaceReq)).err =
        some ⟨"net/url: invalid control character in URL"⟩ := by decide
  ⟨herr, four_error_kinds toyJSON (cannedHTTP 200 ⟨[123, 125], none⟩) ⟨tokenMac⟩
    (.spaceReq lineFeedSpaceReq) _ herr⟩

end Statistic
